import Mathlib

/-!
Verification of the wsen-tids temperature-sensor driver (src/wsen-tids/src/lib.rs).

The development shallowly embeds the driver in Lean:

* Rust f32 arithmetic is modelled exactly: every finite f32 value is the
  rational number it denotes, and each arithmetic step rounds its exact
  rational result back to IEEE-754 binary32 precision with round-to-nearest,
  ties-to-even (the rounding the hardware performs).  The Rust cast
  `as u8` is modelled by truncation toward zero followed by saturation
  to [0, 255], the semantics of Rust float-to-integer casts.
* The I2C transport is modelled as an oracle assigning every bus
  transaction of an operation (numbered from 0) a response: for a read the
  bytes deposited in the caller's buffer, for a write a success marker, or
  a transport error.  Each driver operation returns its outcome together
  with the list of bus transactions it issued, in order, and the sensor
  state after the call.
-/

section WsenTidsModel

attribute [local semireducible] Rat.mul Rat.add Rat.sub Rat.inv Rat.ofScientific

/-- Floor of a rational, written so that it reduces in the kernel. -/
def qfloor (q : ℚ) : ℤ := q.num / q.den

theorem qfloor_eq (q : ℚ) : qfloor q = ⌊q⌋ := (Rat.floor_def).symm

/-- Truncation toward zero of a rational, the rounding of a Rust
float-to-integer cast. -/
def truncQ (q : ℚ) : ℤ :=
  if 0 ≤ q then qfloor q else -(qfloor (-q))

/-- Round a rational to the nearest integer, ties to even. -/
def rne (q : ℚ) : ℤ :=
  let n := qfloor q
  let r := q - n
  if r < 1/2 then n
  else if 1/2 < r then n + 1
  else if n % 2 = 0 then n else n + 1

/-- Fuel-driven binary logarithm (the fuel argument only drives structural
recursion; with fuel ≥ n the result is the floor of log2 n). -/
def log2fuel : ℕ → ℕ → ℕ
  | 0, _ => 0
  | fuel + 1, n => if n ≤ 1 then 0 else log2fuel fuel (n / 2) + 1

def qlog2 (n : ℕ) : ℕ := log2fuel n n

/-- Smallest k with d ≤ n * 2 ^ k, found by bounded search upward from k. -/
def findExpNeg (n d : ℕ) : ℕ → ℕ → ℕ
  | 0, k => k
  | fuel + 1, k => if d ≤ n * 2 ^ k then k else findExpNeg n d fuel (k + 1)

/-- Binary exponent of a nonzero rational: the unique e with
2 ^ e ≤ |q| < 2 ^ (e + 1). -/
def qexp (q : ℚ) : ℤ :=
  let n := q.num.natAbs
  let d := q.den
  if d ≤ n then (qlog2 (n / d) : ℤ)
  else -(findExpNeg n d (qlog2 d + 2) 1)

/-- Multiply a rational by 2 ^ s for a signed exponent s. -/
def mulPow2 (q : ℚ) (s : ℤ) : ℚ :=
  if 0 ≤ s then q * (2 ^ s.toNat : ℚ) else q / (2 ^ (-s).toNat : ℚ)

/-- Round an exact rational to IEEE-754 binary32 precision
(round-to-nearest, ties-to-even; 24-bit significand, minimum scale
2 ^ (-149) for subnormals).  The result is the rational value denoted by
the f32 nearest to q. -/
def roundF32 (q : ℚ) : ℚ :=
  if q = 0 then 0
  else
    let s := max (qexp q - 23) (-149)
    mulPow2 (rne (mulPow2 q (-s)) : ℚ) s

/-- Rust f32 addition on the denoted rational values. -/
def f32add (a b : ℚ) : ℚ := roundF32 (a + b)

/-- Rust f32 multiplication on the denoted rational values. -/
def f32mul (a b : ℚ) : ℚ := roundF32 (a * b)

/-- Rust f32 division on the denoted rational values. -/
def f32div (a b : ℚ) : ℚ := roundF32 (a / b)

/-- Rust cast from f32 to u8: truncation toward zero, saturating to
[0, 255].  (NaN casts to 0, but no NaN arises in this driver: every f32
the driver computes is finite.) -/
def u8OfF32 (q : ℚ) : ℕ := (min 255 (max 0 (truncQ q))).toNat

/-- Value of the Rust literal 0.64f32. -/
def lit064 : ℚ := roundF32 (64 / 100)

/-- Value of the Rust literal 0.01f32. -/
def lit001 : ℚ := roundF32 (1 / 100)

/-- The f32 value of (celcius / 0.64) + 63.0 computed in f32 arithmetic,
the expression inside the cast in temperature_to_reg_value.  The literal
63.0f32 is exactly 63. -/
def encodeExprF32 (celcius : ℚ) : ℚ := f32add (f32div celcius lit064) 63

/-- Embedding of fn temperature_to_reg_value(celcius: f32) -> u8,
which is ((celcius / 0.64) + 63.0) as u8. -/
def temperature_to_reg_value (celcius : ℚ) : ℕ := u8OfF32 (encodeExprF32 celcius)

/-- Register offsets, as in the source. -/
def REG_DEVICE_ID : ℕ := 0x01

def REG_TEMP_HIGH_LIMIT : ℕ := 0x02

def REG_TEMP_LOW_LIMIT : ℕ := 0x03

def REG_CONTROL : ℕ := 0x04

def REG_STATUS : ℕ := 0x05

def REG_DATA_TEMP_L : ℕ := 0x06

def REG_DATA_TEMP_H : ℕ := 0x07

def REG_SOFT_RESET : ℕ := 0x0C

/-- I2C device address selection (enum AddressSelect). -/
inductive AddressSelect where
  | High
  | Low
  deriving DecidableEq

/-- Discriminant of the AddressSelect enum; `self as u8` in the
Into<SevenBitAddress> impl. -/
def AddressSelect.toAddr : AddressSelect → ℕ
  | .High => 0b0111000
  | .Low => 0b0111111

/-- Continuous conversion speed (enum Speed). -/
inductive Speed where
  | Hz25
  | Hz50
  | Hz100
  | Hz200
  deriving DecidableEq

/-- Discriminant of the Speed enum. -/
def Speed.toBits : Speed → ℕ
  | .Hz25 => 0b00
  | .Hz50 => 0b01
  | .Hz100 => 0b10
  | .Hz200 => 0b11

/-- Sensor operating mode (enum Mode). -/
inductive Mode where
  | PowerDown
  | SingleConversion
  | Continuous (s : Speed)
  deriving DecidableEq

/-- Sensor state.  The Rust struct also owns the I2C handle; in this
embedding the transport is supplied per call as an oracle, so the only
state is the resolved 7-bit bus address. -/
structure Sensor where
  address : ℕ
  deriving DecidableEq

/-- Sensor::new resolves the address select into the bus address.  It
performs no bus transaction and cannot fail (it takes no oracle and is a
total function). -/
def Sensor.new (sel : AddressSelect) : Sensor := ⟨sel.toAddr⟩

/-- One bus transaction as it appears on the wire: an addressed read of a
byte count, or an addressed write of a byte list. -/
inductive BusOp where
  | read (addr : ℕ) (len : ℕ)
  | write (addr : ℕ) (data : List ℕ)
  deriving DecidableEq

/-- Address of a bus transaction. -/
def BusOp.addr : BusOp → ℕ
  | .read a _ => a
  | .write a _ => a

/-- Transport oracle: the response to the k-th bus transaction issued by
one driver operation.  For a read, Except.ok gives the bytes the
transport deposits in the caller's buffer; for a write, Except.ok means
the write was acknowledged (the payload is ignored). -/
def Oracle (ε : Type) : Type := ℕ → Except ε (List ℕ)

/-- Outcome of a driver operation: normal return, propagated transport
error, or a Rust panic (reached only through the todo! macro in
configure). -/
inductive Outcome (ε α : Type) where
  | ok (a : α)
  | err (e : ε)
  | panicked
  deriving DecidableEq

/-- Result of one driver operation: its outcome, the bus transactions it
issued in order, and the sensor state after the call. -/
structure OpResult (ε α : Type) where
  out : Outcome ε α
  log : List BusOp
  sensor : Sensor
  deriving DecidableEq

variable {ε : Type}

/-- Wrapping u8 addition, the semantics of self.address + REG_... in the
source (the operands here are small enough that no wrap occurs). -/
def u8add (a b : ℕ) : ℕ := (a + b) % 256

/-- First byte of the read buffer after the transport filled it; the
buffer holds u8 values, hence the reduction mod 256. -/
def byteAt (bytes : List ℕ) : ℕ := bytes.getD 0 0 % 256

/-- Outcome of a bare write call, as the driver propagates it. -/
def liftWrite : Except ε (List ℕ) → Outcome ε Unit
  | .ok _ => .ok ()
  | .error e => .err e

/-- Embedding of Sensor::read_device_id: one one-byte read at
(address + REG_DEVICE_ID); returns buf[0] on success, the transport
error otherwise. -/
def read_device_id (s : Sensor) (bus : Oracle ε) : OpResult ε ℕ :=
  let t : BusOp := .read (u8add s.address REG_DEVICE_ID) 1
  match bus 0 with
  | .ok buf => ⟨.ok (byteAt buf), [t], s⟩
  | .error e => ⟨.err e, [t], s⟩

/-- Embedding of Sensor::disable_temperature_high_limit: one write of
[0] to (address + REG_TEMP_HIGH_LIMIT). -/
def disable_temperature_high_limit (s : Sensor) (bus : Oracle ε) : OpResult ε Unit :=
  ⟨liftWrite (bus 0), [.write (u8add s.address REG_TEMP_HIGH_LIMIT) [0]], s⟩

/-- Embedding of Sensor::disable_temperature_low_limit: one write of
[0] to (address + REG_TEMP_LOW_LIMIT). -/
def disable_temperature_low_limit (s : Sensor) (bus : Oracle ε) : OpResult ε Unit :=
  ⟨liftWrite (bus 0), [.write (u8add s.address REG_TEMP_LOW_LIMIT) [0]], s⟩

/-- Embedding of Sensor::temperature_high_limit: encode, then one write
of the encoded byte to (address + REG_TEMP_HIGH_LIMIT). -/
def temperature_high_limit (s : Sensor) (celcius : ℚ) (bus : Oracle ε) : OpResult ε Unit :=
  let value := temperature_to_reg_value celcius
  ⟨liftWrite (bus 0), [.write (u8add s.address REG_TEMP_HIGH_LIMIT) [value]], s⟩

/-- Embedding of Sensor::temperature_low_limit: encode, then one write
of the encoded byte to (address + REG_TEMP_LOW_LIMIT). -/
def temperature_low_limit (s : Sensor) (celcius : ℚ) (bus : Oracle ε) : OpResult ε Unit :=
  let value := temperature_to_reg_value celcius
  ⟨liftWrite (bus 0), [.write (u8add s.address REG_TEMP_LOW_LIMIT) [value]], s⟩

/-- Embedding of Sensor::configure.  The Rust body begins with
todo!("Implement register configuration"), which panics unconditionally
before any bus transaction; the match on the mode and the control-register
write after it are unreachable code. -/
def configure (s : Sensor) (_mode : Mode) (_bus : Oracle ε) : OpResult ε Unit :=
  ⟨.panicked, [], s⟩

/-- The value the unreachable match in Sensor::configure would compute
for each mode: 0 for every variant. -/
def configure_unreachable_value : Mode → ℕ
  | .PowerDown => 0
  | .SingleConversion => 0
  | .Continuous _ => 0

/-- Embedding of Sensor::read_temperature: a one-byte read at
(address + REG_DATA_TEMP_L), then a one-byte read at
(address + REG_DATA_TEMP_H); on the first error the operation returns at
once.  On success the u16 composite (high << 8) | low is cast to f32
(exact, as u16 values fit in 24 bits) and multiplied by 0.01f32. -/
def read_temperature (s : Sensor) (bus : Oracle ε) : OpResult ε ℚ :=
  let t0 : BusOp := .read (u8add s.address REG_DATA_TEMP_L) 1
  let t1 : BusOp := .read (u8add s.address REG_DATA_TEMP_H) 1
  match bus 0 with
  | .error e => ⟨.err e, [t0], s⟩
  | .ok buf0 =>
    let low : ℕ := byteAt buf0
    match bus 1 with
    | .error e => ⟨.err e, [t0, t1], s⟩
    | .ok buf1 =>
      let high : ℕ := byteAt buf1
      let composite : ℚ := roundF32 ((high <<< 8 ||| low : ℕ) : ℚ)
      ⟨.ok (f32mul composite lit001), [t0, t1], s⟩

/-- Embedding of Sensor::reset: one write of [1 << 1] to
(address + REG_SOFT_RESET). -/
def reset (s : Sensor) (bus : Oracle ε) : OpResult ε Unit :=
  ⟨liftWrite (bus 0), [.write (u8add s.address REG_SOFT_RESET) [1 <<< 1]], s⟩


/-! Helper lemmas about the saturating cast. -/

theorem truncQ_nonneg {q : ℚ} (h : 0 ≤ q) : 0 ≤ truncQ q := by
  simp only [truncQ, if_pos h, qfloor_eq]
  exact Int.floor_nonneg.mpr h

theorem truncQ_lt_of_lt {q : ℚ} (h0 : 0 ≤ q) (h : q < 256) : truncQ q < 256 := by
  simp only [truncQ, if_pos h0, qfloor_eq]
  exact Int.floor_lt.mpr (by exact_mod_cast h)

theorem truncQ_nonpos {q : ℚ} (h : q < 0) : truncQ q ≤ 0 := by
  simp only [truncQ, if_neg (not_le.mpr h), qfloor_eq]
  have h2 : (0 : ℤ) ≤ ⌊-q⌋ := Int.floor_nonneg.mpr (by linarith)
  omega

theorem le_truncQ_of_le {q : ℚ} (h : (256 : ℚ) ≤ q) : (256 : ℤ) ≤ truncQ q := by
  have hq : (0 : ℚ) ≤ q := le_trans (by norm_num) h
  simp only [truncQ, if_pos hq, qfloor_eq]
  exact Int.le_floor.mpr (by exact_mod_cast h)

theorem u8OfF32_eq_trunc {q : ℚ} (h0 : 0 ≤ q) (h1 : q < 256) :
    u8OfF32 q = (truncQ q).toNat := by
  have a := truncQ_nonneg h0
  have b := truncQ_lt_of_lt h0 h1
  simp only [u8OfF32]
  rw [max_eq_right a, min_eq_right (by omega)]

theorem u8OfF32_sat_high {q : ℚ} (h : (256 : ℚ) ≤ q) : u8OfF32 q = 255 := by
  have a := le_truncQ_of_le h
  simp only [u8OfF32]
  rw [max_eq_right (by omega), min_eq_left (by omega)]
  decide

theorem u8OfF32_sat_low {q : ℚ} (h : q < 0) : u8OfF32 q = 0 := by
  have a := truncQ_nonpos h
  simp only [u8OfF32]
  rw [max_eq_left a]
  decide

/-! Concrete transports used to witness the claims. -/

/-- Transport that acknowledges every transaction. -/
def busAck : Oracle ℕ := fun _ => .ok []

/-- Transport that fails every transaction with error 7. -/
def busErr7 : Oracle ℕ := fun _ => .error 7

/-- Transport whose first read yields byte 0 and second read yield byte 1. -/
def busLowHigh : Oracle ℕ := fun k => if k = 0 then .ok [0] else .ok [1]

/-- Transport whose reads yield the device-id byte 0xA0. -/
def busId : Oracle ℕ := fun _ => .ok [0xA0]

/-! Claim theorems. -/

/-- Claim C1: temperature_to_reg_value truncates the f32-computed value
(celcius / 0.64) + 63 toward zero whenever that value lies in [0, 256),
and it reproduces the reference table: encode(-39.68) = 1,
encode(-39.04 + 0.001) = 2, encode(-38.40 + 0.001) = 3, encode(-0.64) = 62,
encode(0.0) = 63, encode(0.64) = 64, encode(122.24) = 254,
encode(122.88) = 255.  Rounding is strictly toward zero, never to nearest:
at input 0.5 the encoded value 63.78125 truncates to 63 although the
nearest integer is 64. -/
theorem c1_temperature_encode :
    (∀ c : ℚ, 0 ≤ encodeExprF32 c → encodeExprF32 c < 256 →
        temperature_to_reg_value c = (truncQ (encodeExprF32 c)).toNat) ∧
    temperature_to_reg_value (roundF32 (-3968 / 100)) = 1 ∧
    temperature_to_reg_value (f32add (roundF32 (-3904 / 100)) (roundF32 (1 / 1000))) = 2 ∧
    temperature_to_reg_value (f32add (roundF32 (-3840 / 100)) (roundF32 (1 / 1000))) = 3 ∧
    temperature_to_reg_value (roundF32 (-64 / 100)) = 62 ∧
    temperature_to_reg_value 0 = 63 ∧
    temperature_to_reg_value (roundF32 (64 / 100)) = 64 ∧
    temperature_to_reg_value (roundF32 (12224 / 100)) = 254 ∧
    temperature_to_reg_value (roundF32 (12288 / 100)) = 255 ∧
    (temperature_to_reg_value (roundF32 (1 / 2)) = 63 ∧
      rne (encodeExprF32 (roundF32 (1 / 2))) = 64) :=
  ⟨fun _ h0 h1 => u8OfF32_eq_trunc h0 h1,
    by decide, by decide, by decide, by decide, by decide,
    by decide, by decide, by decide, by decide, by decide⟩

/-- Claim C1 witness: the truncation equation instantiated at the
representable input 0.64f32. -/
theorem c1_temperature_encode_witness :
    0 ≤ encodeExprF32 (roundF32 (64 / 100)) ∧
    encodeExprF32 (roundF32 (64 / 100)) < 256 ∧
    temperature_to_reg_value (roundF32 (64 / 100)) =
      (truncQ (encodeExprF32 (roundF32 (64 / 100)))).toNat :=
  ⟨by decide, by decide,
    c1_temperature_encode.1 (roundF32 (64 / 100)) (by decide) (by decide)⟩

/-- Claim C2 counterexample: with a transport that acknowledges every
transaction, configure(PowerDown) neither writes the byte 0 to the
control register at (base + 0x04) nor returns the transport's result:
the todo! placeholder panics before any bus transaction. -/
theorem c2_counterexample :
    ¬ ((configure (Sensor.new AddressSelect.High) Mode.PowerDown busAck).log
          = [BusOp.write (AddressSelect.High.toAddr + REG_CONTROL) [0]] ∧
       (configure (Sensor.new AddressSelect.High) Mode.PowerDown busAck).out
          = Outcome.ok ()) := by
  decide

/-- Claim C2 (amended): for every Mode variant and every transport,
configure panics (its body begins with the todo! macro) before issuing
any bus transaction, and the unreachable match following the panic would
compute the byte 0 for every variant. -/
theorem c2_configure_panics (sel : AddressSelect) (mode : Mode) (bus : Oracle ε) :
    (configure (Sensor.new sel) mode bus).out = Outcome.panicked ∧
    (configure (Sensor.new sel) mode bus).log = [] ∧
    configure_unreachable_value mode = 0 := by
  refine ⟨rfl, rfl, ?_⟩
  cases mode <;> rfl

/-- Claim C3: the two address selects resolve to 0x38 and 0x3F, and every
bus transaction of every public operation is addressed at the resolved
base address plus the fixed register offset (device id 0x01, high limit
0x02, low limit 0x03, control 0x04, temp data low 0x06, temp data high
0x07, soft reset 0x0C). -/
theorem c3_bus_addressing (sel : AddressSelect) (bus : Oracle ε) (c : ℚ) (mode : Mode) :
    AddressSelect.High.toAddr = 0x38 ∧
    AddressSelect.Low.toAddr = 0x3F ∧
    (read_device_id (Sensor.new sel) bus).log.map BusOp.addr
      = [sel.toAddr + REG_DEVICE_ID] ∧
    (disable_temperature_high_limit (Sensor.new sel) bus).log.map BusOp.addr
      = [sel.toAddr + REG_TEMP_HIGH_LIMIT] ∧
    (disable_temperature_low_limit (Sensor.new sel) bus).log.map BusOp.addr
      = [sel.toAddr + REG_TEMP_LOW_LIMIT] ∧
    (temperature_high_limit (Sensor.new sel) c bus).log.map BusOp.addr
      = [sel.toAddr + REG_TEMP_HIGH_LIMIT] ∧
    (temperature_low_limit (Sensor.new sel) c bus).log.map BusOp.addr
      = [sel.toAddr + REG_TEMP_LOW_LIMIT] ∧
    (∀ op ∈ (configure (Sensor.new sel) mode bus).log,
        op.addr = sel.toAddr + REG_CONTROL) ∧
    (∀ op ∈ (read_temperature (Sensor.new sel) bus).log,
        op.addr = sel.toAddr + REG_DATA_TEMP_L ∨
        op.addr = sel.toAddr + REG_DATA_TEMP_H) ∧
    (reset (Sensor.new sel) bus).log.map BusOp.addr
      = [sel.toAddr + REG_SOFT_RESET] := by
  cases sel <;> cases h0 : bus 0 <;> cases h1 : bus 1 <;>
    simp_all [read_device_id, disable_temperature_high_limit,
      disable_temperature_low_limit, temperature_high_limit, temperature_low_limit,
      configure, read_temperature, reset, Sensor.new, AddressSelect.toAddr,
      BusOp.addr, u8add, REG_DEVICE_ID, REG_TEMP_HIGH_LIMIT, REG_TEMP_LOW_LIMIT,
      REG_CONTROL, REG_DATA_TEMP_L, REG_DATA_TEMP_H, REG_SOFT_RESET]

/-- Claim C3 witness: the first data-byte read of read_temperature on a
concrete transport is addressed at base 0x38 plus offset 0x06. -/
theorem c3_bus_addressing_witness :
    (BusOp.read 62 1) ∈ (read_temperature (Sensor.new AddressSelect.High) busLowHigh).log ∧
    ((BusOp.read 62 1).addr = AddressSelect.High.toAddr + REG_DATA_TEMP_L ∨
      (BusOp.read 62 1).addr = AddressSelect.High.toAddr + REG_DATA_TEMP_H) :=
  ⟨by decide,
    (c3_bus_addressing AddressSelect.High busLowHigh 0 Mode.PowerDown).2.2.2.2.2.2.2.2.1
      (BusOp.read 62 1) (by decide)⟩

/-- Claim C4: when both reads succeed, read_temperature issues exactly
two one-byte reads, first at (base + 0x06) and then at (base + 0x07),
and returns the f32 value ((high << 8) | low) * 0.01; with low = 0x00 and
high = 0x01 the composite is 256 and the result is the f32 value of
2.56 degrees. -/
theorem c4_read_temperature_success (sel : AddressSelect) (bus : Oracle ε)
    (b0 b1 : List ℕ) (h0 : bus 0 = .ok b0) (h1 : bus 1 = .ok b1) :
    (read_temperature (Sensor.new sel) bus).log
      = [BusOp.read (sel.toAddr + REG_DATA_TEMP_L) 1,
         BusOp.read (sel.toAddr + REG_DATA_TEMP_H) 1] ∧
    (read_temperature (Sensor.new sel) bus).out
      = Outcome.ok (f32mul (roundF32 ((byteAt b1 <<< 8 ||| byteAt b0 : ℕ) : ℚ)) lit001) ∧
    ((1 : ℕ) <<< 8 ||| 0) = 256 ∧
    f32mul (roundF32 (256 : ℚ)) lit001 = roundF32 (256 / 100) := by
  refine ⟨?_, ?_, by decide, by decide⟩ <;>
    cases sel <;>
      simp [read_temperature, h0, h1, Sensor.new, AddressSelect.toAddr, u8add,
        REG_DATA_TEMP_L, REG_DATA_TEMP_H]

/-- Claim C4 witness: on a transport delivering low byte 0x00 and high
byte 0x01, read_temperature returns the f32 value of 2.56 degrees. -/
theorem c4_read_temperature_success_witness :
    busLowHigh 0 = .ok [0] ∧ busLowHigh 1 = .ok [1] ∧
    (read_temperature (Sensor.new AddressSelect.High) busLowHigh).out
      = Outcome.ok (roundF32 (256 / 100)) := by
  refine ⟨rfl, rfl, ?_⟩
  have h := c4_read_temperature_success AddressSelect.High busLowHigh [0] [1] rfl rfl
  rw [h.2.1]
  decide

/-- Claim C5: if the low-byte read of read_temperature fails, that error
is returned unchanged and no second transaction occurs; if the high-byte
read fails, that error is returned unchanged and no further transaction
follows the two reads. -/
theorem c5_read_temperature_error (sel : AddressSelect) (bus : Oracle ε) (e : ε) :
    (bus 0 = .error e →
      (read_temperature (Sensor.new sel) bus).out = Outcome.err e ∧
      (read_temperature (Sensor.new sel) bus).log
        = [BusOp.read (sel.toAddr + REG_DATA_TEMP_L) 1]) ∧
    (∀ b0, bus 0 = .ok b0 → bus 1 = .error e →
      (read_temperature (Sensor.new sel) bus).out = Outcome.err e ∧
      (read_temperature (Sensor.new sel) bus).log
        = [BusOp.read (sel.toAddr + REG_DATA_TEMP_L) 1,
           BusOp.read (sel.toAddr + REG_DATA_TEMP_H) 1]) := by
  constructor
  · intro h0
    cases sel <;>
      simp [read_temperature, h0, Sensor.new, AddressSelect.toAddr, u8add, REG_DATA_TEMP_L]
  · intro b0 h0 h1
    cases sel <;>
      simp [read_temperature, h0, h1, Sensor.new, AddressSelect.toAddr, u8add,
        REG_DATA_TEMP_L, REG_DATA_TEMP_H]

/-- Claim C5 witness: on a transport failing the first read with error 7,
read_temperature returns error 7 after exactly one bus transaction. -/
theorem c5_read_temperature_error_witness :
    busErr7 0 = .error 7 ∧
    (read_temperature (Sensor.new AddressSelect.High) busErr7).out = Outcome.err 7 ∧
    (read_temperature (Sensor.new AddressSelect.High) busErr7).log = [BusOp.read 62 1] := by
  have h := (c5_read_temperature_error AddressSelect.High busErr7 7).1 rfl
  refine ⟨rfl, h.1, ?_⟩
  rw [h.2]
  decide

/-- Claim C6: each threshold operation issues exactly one one-byte write
and nothing else: the disable operations write 0x00 to offsets 0x02 and
0x03, and the limit setters write temperature_to_reg_value(c) to offsets
0x02 and 0x03, each returning the transport's result. -/
theorem c6_threshold_writes (sel : AddressSelect) (bus : Oracle ε) (c : ℚ) :
    (disable_temperature_high_limit (Sensor.new sel) bus).log
      = [BusOp.write (sel.toAddr + REG_TEMP_HIGH_LIMIT) [0]] ∧
    (disable_temperature_high_limit (Sensor.new sel) bus).out = liftWrite (bus 0) ∧
    (disable_temperature_low_limit (Sensor.new sel) bus).log
      = [BusOp.write (sel.toAddr + REG_TEMP_LOW_LIMIT) [0]] ∧
    (disable_temperature_low_limit (Sensor.new sel) bus).out = liftWrite (bus 0) ∧
    (temperature_high_limit (Sensor.new sel) c bus).log
      = [BusOp.write (sel.toAddr + REG_TEMP_HIGH_LIMIT) [temperature_to_reg_value c]] ∧
    (temperature_high_limit (Sensor.new sel) c bus).out = liftWrite (bus 0) ∧
    (temperature_low_limit (Sensor.new sel) c bus).log
      = [BusOp.write (sel.toAddr + REG_TEMP_LOW_LIMIT) [temperature_to_reg_value c]] ∧
    (temperature_low_limit (Sensor.new sel) c bus).out = liftWrite (bus 0) := by
  cases sel <;>
    simp [disable_temperature_high_limit, disable_temperature_low_limit,
      temperature_high_limit, temperature_low_limit, Sensor.new, AddressSelect.toAddr,
      u8add, REG_TEMP_HIGH_LIMIT, REG_TEMP_LOW_LIMIT]

/-- Claim C7: reset issues exactly one write of the single byte
0x02 = 1 << 1 (bit 1 set) to (base + 0x0C) and returns the transport's
result. -/
theorem c7_reset_write (sel : AddressSelect) (bus : Oracle ε) :
    (reset (Sensor.new sel) bus).log
      = [BusOp.write (sel.toAddr + REG_SOFT_RESET) [2]] ∧
    (reset (Sensor.new sel) bus).out = liftWrite (bus 0) ∧
    ((1 : ℕ) <<< 1) = 2 := by
  cases sel <;> refine ⟨?_, rfl, by decide⟩ <;>
    simp [reset, Sensor.new, AddressSelect.toAddr, u8add, REG_SOFT_RESET]

/-- Claim C8: read_device_id performs one one-byte read at (base + 0x01)
and returns the delivered byte unmodified on success, and the transport's
error unmodified on failure. -/
theorem c8_device_id_passthrough (sel : AddressSelect) (bus : Oracle ε) (b : ℕ) (e : ε) :
    (b < 256 → bus 0 = .ok [b] →
      (read_device_id (Sensor.new sel) bus).out = Outcome.ok b) ∧
    (bus 0 = .error e →
      (read_device_id (Sensor.new sel) bus).out = Outcome.err e) ∧
    (read_device_id (Sensor.new sel) bus).log
      = [BusOp.read (sel.toAddr + REG_DEVICE_ID) 1] := by
  refine ⟨?_, ?_, ?_⟩
  · intro hb h0
    simp [read_device_id, h0, byteAt, Nat.mod_eq_of_lt hb]
  · intro h0
    simp [read_device_id, h0]
  · cases sel <;> cases h0 : bus 0 <;>
      simp [read_device_id, h0, Sensor.new, AddressSelect.toAddr, u8add, REG_DEVICE_ID]

/-- Claim C8 witness: on a transport delivering the byte 0xA0,
read_device_id returns 0xA0. -/
theorem c8_device_id_passthrough_witness :
    (0xA0 : ℕ) < 256 ∧ busId 0 = .ok [0xA0] ∧
    (read_device_id (Sensor.new AddressSelect.High) busId).out = Outcome.ok 0xA0 :=
  ⟨by decide, rfl,
    (c8_device_id_passthrough AddressSelect.High busId 0xA0 0).1 (by decide) rfl⟩

/-- Claim C9 counterexample: at input 200 (an exactly representable f32
Celsius value) the encoded f32 value is 375.5, whose truncation 375 wraps
mod 256 to 119; the driver instead returns 255, because the Rust as-cast
saturates rather than wraps. -/
theorem c9_counterexample :
    temperature_to_reg_value (roundF32 200) = 255 ∧
    ((truncQ (encodeExprF32 (roundF32 200))).emod 256).toNat = 119 ∧
    temperature_to_reg_value (roundF32 200)
      ≠ ((truncQ (encodeExprF32 (roundF32 200))).emod 256).toNat :=
  ⟨by decide, by decide, by decide⟩

/-- Claim C9 (amended): when the f32-computed value (c / 0.64) + 63 falls
outside [0, 255], temperature_to_reg_value silently saturates it — 0 when
the value is negative, 255 when it is at least 256 — with no validation
or error from the driver (the encoder is a total function into the byte
range). -/
theorem c9_saturation (c : ℚ) :
    (encodeExprF32 c < 0 → temperature_to_reg_value c = 0) ∧
    ((256 : ℚ) ≤ encodeExprF32 c → temperature_to_reg_value c = 255) :=
  ⟨fun h => u8OfF32_sat_low h, fun h => u8OfF32_sat_high h⟩

/-- Claim C9 witness: saturation at the out-of-range inputs -100 and 200
degrees Celsius. -/
theorem c9_saturation_witness :
    (encodeExprF32 (roundF32 (-100)) < 0 ∧
      temperature_to_reg_value (roundF32 (-100)) = 0) ∧
    ((256 : ℚ) ≤ encodeExprF32 (roundF32 200) ∧
      temperature_to_reg_value (roundF32 200) = 255) :=
  ⟨⟨by decide, (c9_saturation (roundF32 (-100))).1 (by decide)⟩,
    ⟨by decide, (c9_saturation (roundF32 200)).2 (by decide)⟩⟩

/-- Claim C10: construction resolves the address select into the stored
address without bus I/O (Sensor.new is a total function taking no
transport), and every public operation leaves the stored sensor state —
hence the resolved address — unchanged for every transport outcome. -/
theorem c10_address_stable (sel : AddressSelect) (bus : Oracle ε) (c : ℚ) (mode : Mode) :
    (Sensor.new sel).address = sel.toAddr ∧
    (read_device_id (Sensor.new sel) bus).sensor = Sensor.new sel ∧
    (disable_temperature_high_limit (Sensor.new sel) bus).sensor = Sensor.new sel ∧
    (disable_temperature_low_limit (Sensor.new sel) bus).sensor = Sensor.new sel ∧
    (temperature_high_limit (Sensor.new sel) c bus).sensor = Sensor.new sel ∧
    (temperature_low_limit (Sensor.new sel) c bus).sensor = Sensor.new sel ∧
    (configure (Sensor.new sel) mode bus).sensor = Sensor.new sel ∧
    (read_temperature (Sensor.new sel) bus).sensor = Sensor.new sel ∧
    (reset (Sensor.new sel) bus).sensor = Sensor.new sel := by
  cases h0 : bus 0 <;> cases h1 : bus 1 <;>
    simp [Sensor.new, read_device_id, disable_temperature_high_limit,
      disable_temperature_low_limit, temperature_high_limit, temperature_low_limit,
      configure, read_temperature, reset, h0, h1]

end WsenTidsModel
